import Mathlib

/-!
Shallow embedding of the langpify event-driven lifecycle and needs engine.

Sources embedded here:
- `src/langpify/entities/entities.py` — `LangpifyStatus`, `LangpifyEvent`,
  `LangpifyNeed` with `decay`, `satiate`, `get_urgency_level`;
- `src/langpify/entities/base_agent.py` — `LangpifyBaseAgent` with the sensor
  registries, `emit`, `on_any`, `off_any`, `subscribe_to`, `unsubscribe_from`,
  `_handle_external_event`, `update_needs`, `process_need_satisfaction`,
  `suspend`, `resume`.

Modelling conventions:
- Python floats are modelled by an arbitrary linear ordered field `α`
  (instantiated at `ℚ` for executable checks and at `ℝ` where the real
  square root of `satiate` matters).  Python's `x ** 0.5` is modelled by an
  explicit function parameter `sqrtFn` instantiated with `Real.sqrt`.
- `time.time()` is passed explicitly as a `now : α` argument.
- Python dicts keyed by strings are insertion-ordered association lists.
- Listener callbacks are identified values: either an opaque external
  callback (`Listener.external i`) or the bound method
  `_handle_external_event` of the agent with a given id
  (`Listener.handler aid`).  Running a dispatch produces the trace of
  external-callback invocations `(owner agent id, callback id, event)`;
  forwarding handlers recurse instead of appearing in the trace.
- Dispatch recursion through forwarding handlers is bounded by an explicit
  `fuel : ℕ` that decreases only when a forwarding handler is entered
  (Python recurses on the call stack; every theorem below supplies enough
  fuel for the configurations it speaks about, so the fuel-exhausted branch
  is never taken there).
-/

namespace Langpify

/-- Agent lifecycle status, from `LangpifyStatus` in `entities.py`. -/
inductive LangpifyStatus where
  | ACTIVE
  | INITIATED
  | SUSPENDED
  | WORKING
  | DELETED
  | WAITING
  | ERROR
deriving DecidableEq, Repr

/-- A Python value as it appears in an event `data` payload. -/
inductive PyValue (α : Type) where
  | str (s : String)
  | num (x : α)
  | status (s : LangpifyStatus)
  | dict (entries : List (String × PyValue α))

/-- An event record, from `LangpifyEvent` in `entities.py`:
`{type, source, timestamp, data}`. -/
structure LangpifyEvent (α : Type) where
  type : String
  source : String
  timestamp : α
  data : List (String × PyValue α)

/-- A homeostatic need, from `LangpifyNeed` in `entities.py`. -/
structure LangpifyNeed (α : Type) where
  name : String
  value : α
  decay_rate : α
  satiation_rate : α
  satiation_event_type : String
  min_value : α
  max_value : α
  last_updated : α
  description : Option String
deriving DecidableEq

variable {α : Type} [LinearOrderedField α]

/-- `LangpifyNeed.decay` from `entities.py`:
`decayed_value = self.value - (self.decay_rate * elapsed_seconds)`;
`self.value = max(self.min_value, decayed_value)`; returns `self.value`.
The result is the mutated need together with the returned value. -/
def LangpifyNeed.decay (n : LangpifyNeed α) (elapsed_seconds : α) :
    LangpifyNeed α × α :=
  let decayed_value := n.value - n.decay_rate * elapsed_seconds
  let v := max n.min_value decayed_value
  ({ n with value := v }, v)

/-- `LangpifyNeed.satiate` from `entities.py`:
if `satiation_amount is None` use `self.satiation_rate`;
`remaining_capacity = self.max_value - self.value`;
`effective_satiation = satiation_amount * (remaining_capacity / self.max_value) ** 0.5`;
`self.value = min(self.max_value, self.value + effective_satiation)`;
returns `self.value`.  Python's `** 0.5` is the square root, passed here as
`sqrtFn` (instantiated with `Real.sqrt` over `ℝ`). -/
def LangpifyNeed.satiate (sqrtFn : α → α) (n : LangpifyNeed α)
    (satiation_amount : Option α) : LangpifyNeed α × α :=
  let amount := satiation_amount.getD n.satiation_rate
  let remaining_capacity := n.max_value - n.value
  let effective_satiation := amount * sqrtFn (remaining_capacity / n.max_value)
  let v := min n.max_value (n.value + effective_satiation)
  ({ n with value := v }, v)

/-- `LangpifyNeed.get_urgency_level` from `entities.py`: bands `value` into
`critical < 0.2 ≤ high < 0.4 ≤ medium < 0.6 ≤ low < 0.8 ≤ satisfied`. -/
def LangpifyNeed.get_urgency_level (n : LangpifyNeed α) : String :=
  if n.value < 0.2 then "critical"
  else if n.value < 0.4 then "high"
  else if n.value < 0.6 then "medium"
  else if n.value < 0.8 then "low"
  else "satisfied"

/-- A registered sensor callback: either an opaque external callback with an
identifying index, or the bound method `_handle_external_event` of the agent
with the given id (the forwarding handler that `subscribe_to` registers). -/
inductive Listener where
  | external (i : ℕ)
  | handler (aid : String)
deriving DecidableEq, Repr

/-- Is this listener an opaque external callback (not a forwarding handler)? -/
def Listener.isExt : Listener → Bool
  | .external _ => true
  | .handler _ => false

/-- The mutable per-agent state of `LangpifyBaseAgent` used by the core:
id, lifecycle status, `_local_sensors` (event-type → listener list, in
insertion order), `_global_sensors`, `_subscribed_agents` (a set, modelled
as a duplicate-free list), and `needs` (name → need, in insertion order). -/
structure LangpifyBaseAgent (α : Type) where
  aid : String
  status : LangpifyStatus
  local_sensors : List (String × List Listener)
  global_sensors : List Listener
  subscribed_agents : List String
  needs : List (String × LangpifyNeed α)
deriving DecidableEq

/-- The trace of external-callback invocations produced by a dispatch:
`(aid of the agent whose registry held the callback, callback id, event)`. -/
abbrev Trace (α : Type) := List (String × ℕ × LangpifyEvent α)

/-- Look an agent up by id in the system (the in-process agent population). -/
def lookupAgent (sys : List (LangpifyBaseAgent α)) (aid : String) :
    Option (LangpifyBaseAgent α) :=
  sys.find? (fun a => a.aid = aid)

/-- The listeners registered for `event_type` in `_local_sensors`
(`emit` checks `if event_type in self._local_sensors`; a missing key means
no local listeners). -/
def localFor (a : LangpifyBaseAgent α) (event_type : String) : List Listener :=
  match a.local_sensors.lookup event_type with
  | some ls => ls
  | none => []

/-- Run a list of listeners on an event, in order, as `emit` and
`_handle_external_event` do.  An external callback contributes one trace
entry; a forwarding handler runs `_handle_external_event` of its agent:
suspension gate, then — if the event's source is in that agent's subscribed
set — re-dispatch through that agent's local-then-global listener lists.
`fuel` bounds the nesting of forwarding handlers (Python recurses on the
call stack; an exhausted-fuel handler contributes nothing, and every theorem
below supplies enough fuel). -/
def runListeners (sys : List (LangpifyBaseAgent α)) (e : LangpifyEvent α) :
    ℕ → String → List Listener → Trace α
  | _, _, [] => []
  | fuel, owner, Listener.external i :: rest =>
      (owner, i, e) :: runListeners sys e fuel owner rest
  | 0, owner, Listener.handler _ :: rest =>
      runListeners sys e 0 owner rest
  | fuel + 1, owner, Listener.handler bid :: rest =>
      (match lookupAgent sys bid with
       | none => []
       | some b =>
         if b.status = LangpifyStatus.SUSPENDED ∧ e.type ≠ "status_changed" then
           []
         else if e.source ∈ b.subscribed_agents then
           runListeners sys e fuel b.aid (localFor b e.type ++ b.global_sensors)
         else []) ++ runListeners sys e (fuel + 1) owner rest
termination_by fuel owner ls => (fuel, ls.length)

/-- The shared dispatch step of `emit` and `_handle_external_event`:
notify the listeners registered for the event's type, then the global
listeners, in registration order. -/
def dispatchEvent (sys : List (LangpifyBaseAgent α)) (fuel : ℕ)
    (a : LangpifyBaseAgent α) (e : LangpifyEvent α) : Trace α :=
  runListeners sys e fuel a.aid (localFor a e.type ++ a.global_sensors)

/-- `LangpifyBaseAgent.emit` from `base_agent.py`: build the event with
`source = self.aid` and `timestamp = time.time()` (passed as `now`); if the
agent is SUSPENDED and the event is not `status_changed`, return without
dispatching (and without error); otherwise dispatch to the local listeners
for the type, then the global listeners. -/
def emit (sys : List (LangpifyBaseAgent α)) (fuel : ℕ)
    (a : LangpifyBaseAgent α) (event_type : String) (now : α)
    (data : List (String × PyValue α)) : Trace α :=
  let e : LangpifyEvent α :=
    { type := event_type, source := a.aid, timestamp := now, data := data }
  if a.status = LangpifyStatus.SUSPENDED ∧ event_type ≠ "status_changed" then
    []
  else dispatchEvent sys fuel a e

/-- `LangpifyBaseAgent._handle_external_event` from `base_agent.py`:
suspension gate, then re-dispatch the event (source and timestamp
unchanged) through this agent's own listener lists, but only if the event's
source is in this agent's subscribed set. -/
def handle_external_event (sys : List (LangpifyBaseAgent α)) (fuel : ℕ)
    (b : LangpifyBaseAgent α) (e : LangpifyEvent α) : Trace α :=
  if b.status = LangpifyStatus.SUSPENDED ∧ e.type ≠ "status_changed" then []
  else if e.source ∈ b.subscribed_agents then dispatchEvent sys fuel b e
  else []

/-- `LangpifyBaseAgent.on_any`: append a listener to `_global_sensors`
(unconditionally — duplicates are allowed). -/
def on_any (a : LangpifyBaseAgent α) (callback : Listener) :
    LangpifyBaseAgent α :=
  { a with global_sensors := a.global_sensors ++ [callback] }

/-- `LangpifyBaseAgent.off_any`: remove the first occurrence of the callback
from `_global_sensors` if present, else do nothing. -/
def off_any (a : LangpifyBaseAgent α) (callback : Listener) :
    LangpifyBaseAgent α :=
  if callback ∈ a.global_sensors then
    { a with global_sensors := a.global_sensors.erase callback }
  else a

/-- Python `set.add`: insert an element into a set modelled as a
duplicate-free list, keeping it unchanged if already present. -/
def setInsert (s : List String) (x : String) : List String :=
  if x ∈ s then s else s ++ [x]

/-- `LangpifyBaseAgent.subscribe_to`: `self` adds `other.aid` to its
subscribed set and registers its forwarding handler as a global listener on
`other`.  Returns `(new self, new other)`. -/
def subscribe_to (self other : LangpifyBaseAgent α) :
    LangpifyBaseAgent α × LangpifyBaseAgent α :=
  ({ self with subscribed_agents := setInsert self.subscribed_agents other.aid },
   on_any other (Listener.handler self.aid))

/-- `LangpifyBaseAgent.unsubscribe_from`: if `other.aid` is in `self`'s
subscribed set, remove it and remove the forwarding handler from `other`'s
global sensors; otherwise do nothing.  Returns `(new self, new other)`. -/
def unsubscribe_from (self other : LangpifyBaseAgent α) :
    LangpifyBaseAgent α × LangpifyBaseAgent α :=
  if other.aid ∈ self.subscribed_agents then
    ({ self with subscribed_agents := self.subscribed_agents.erase other.aid },
     off_any other (Listener.handler self.aid))
  else (self, other)

/-- `LangpifyBaseAgent.suspend`: record the previous status, set status to
SUSPENDED, emit `status_changed` with `{previous_status, current_status}`
(this emission passes the gate because its type is `status_changed`).
Returns `(new agent, trace)`. -/
def suspend (sys : List (LangpifyBaseAgent α)) (fuel : ℕ)
    (a : LangpifyBaseAgent α) (now : α) : LangpifyBaseAgent α × Trace α :=
  let previous_status := a.status
  let a' := { a with status := LangpifyStatus.SUSPENDED }
  (a', emit sys fuel a' "status_changed" now
    [("previous_status", PyValue.status previous_status),
     ("current_status", PyValue.status LangpifyStatus.SUSPENDED)])

/-- `LangpifyBaseAgent.resume`: if the status is not in
`[SUSPENDED, INITIATED]`, return without changing anything or emitting;
otherwise record the previous status, set status to ACTIVE, and emit
`status_changed` with `{previous_status, current_status}`.
Returns `(new agent, trace)`. -/
def resume (sys : List (LangpifyBaseAgent α)) (fuel : ℕ)
    (a : LangpifyBaseAgent α) (now : α) : LangpifyBaseAgent α × Trace α :=
  if a.status ∉ [LangpifyStatus.SUSPENDED, LangpifyStatus.INITIATED] then
    (a, [])
  else
    let previous_status := a.status
    let a' := { a with status := LangpifyStatus.ACTIVE }
    (a', emit sys fuel a' "status_changed" now
      [("previous_status", PyValue.status previous_status),
       ("current_status", PyValue.status LangpifyStatus.ACTIVE)])

/-- `LangpifyBaseAgent.update_needs`: for every need compute
`elapsed = now - need.last_updated`; if `elapsed > 0`, apply `decay(elapsed)`
and set `last_updated = now`; record every need's (possibly unchanged) value
in `updated_values`; finally, if the agent has any needs, emit
`needs_updated` with `{"needs": updated_values}`.
Returns `(new agent, updated_values, trace)`. -/
def update_needs (sys : List (LangpifyBaseAgent α)) (fuel : ℕ)
    (a : LangpifyBaseAgent α) (now : α) :
    LangpifyBaseAgent α × List (String × α) × Trace α :=
  let needsUpdated := a.needs.map (fun p =>
    let elapsed := now - p.2.last_updated
    if 0 < elapsed then
      (p.1, { (p.2.decay elapsed).1 with last_updated := now })
    else p)
  let updated_values := needsUpdated.map (fun p => (p.1, p.2.value))
  let a' := { a with needs := needsUpdated }
  let trace :=
    if a.needs.isEmpty then []
    else emit sys fuel a' "needs_updated" now
      [("needs", PyValue.dict (updated_values.map
        (fun q => (q.1, PyValue.num q.2))))]
  (a', updated_values, trace)

/-- The loop body of `process_need_satisfaction`, processing the needs list
in order: a need whose `satiation_event_type` matches the event type is
satiated (via `satiate`), stamped with `last_updated = now`, recorded in
`satisfied_needs`, and one `need_satisfied` event is emitted for it with
`{need_name, old_value, new_value, event_type}`; any other need is left
untouched.  `emit` reads only the agent's id, status and sensors, which the
loop never changes, so the emitting agent is the unmodified `a`. -/
def processNeedsList (sys : List (LangpifyBaseAgent α)) (fuel : ℕ)
    (sqrtFn : α → α) (a : LangpifyBaseAgent α) (event_type : String)
    (satiation_amount : Option α) (now : α) :
    List (String × LangpifyNeed α) →
    List (String × LangpifyNeed α) × List (String × α) × Trace α
  | [] => ([], [], [])
  | (need_name, need) :: rest =>
    let r := processNeedsList sys fuel sqrtFn a event_type satiation_amount
      now rest
    if need.satiation_event_type = event_type then
      let old_value := need.value
      let s := LangpifyNeed.satiate sqrtFn need satiation_amount
      let tr := emit sys fuel a "need_satisfied" now
        [("need_name", PyValue.str need_name),
         ("old_value", PyValue.num old_value),
         ("new_value", PyValue.num s.2),
         ("event_type", PyValue.str event_type)]
      ((need_name, { s.1 with last_updated := now }) :: r.1,
       (need_name, s.2) :: r.2.1,
       tr ++ r.2.2)
    else ((need_name, need) :: r.1, r.2.1, r.2.2)

/-- `LangpifyBaseAgent.process_need_satisfaction`: run the loop of
`processNeedsList` over the needs and return
`(new agent, satisfied_needs, trace)`. -/
def process_need_satisfaction (sys : List (LangpifyBaseAgent α)) (fuel : ℕ)
    (sqrtFn : α → α) (a : LangpifyBaseAgent α) (event_type : String)
    (satiation_amount : Option α) (now : α) :
    LangpifyBaseAgent α × List (String × α) × Trace α :=
  let r := processNeedsList sys fuel sqrtFn a event_type satiation_amount now
    a.needs
  ({ a with needs := r.1 }, r.2.1, r.2.2)

/-! ### Dispatch lemmas -/

/-- The trace of a listener list that consists of external callbacks only:
one entry per callback, in order (forwarding handlers contribute nothing by
themselves and are skipped by this bookkeeping function). -/
def externalTrace (owner : String) (e : LangpifyEvent α) :
    List Listener → Trace α
  | [] => []
  | Listener.external i :: rest => (owner, i, e) :: externalTrace owner e rest
  | Listener.handler _ :: rest => externalTrace owner e rest

theorem runListeners_nil (sys : List (LangpifyBaseAgent α))
    (e : LangpifyEvent α) (fuel : ℕ) (owner : String) :
    runListeners sys e fuel owner [] = [] := by
  simp [runListeners]

theorem runListeners_cons_external (sys : List (LangpifyBaseAgent α))
    (e : LangpifyEvent α) (fuel : ℕ) (owner : String) (i : ℕ)
    (rest : List Listener) :
    runListeners sys e fuel owner (Listener.external i :: rest) =
      (owner, i, e) :: runListeners sys e fuel owner rest := by
  cases fuel <;> simp [runListeners]

theorem runListeners_cons_handler (sys : List (LangpifyBaseAgent α))
    (e : LangpifyEvent α) (fuel : ℕ) (owner bid : String)
    (rest : List Listener) :
    runListeners sys e (fuel + 1) owner (Listener.handler bid :: rest) =
      (match lookupAgent sys bid with
       | none => []
       | some b => handle_external_event sys fuel b e) ++
        runListeners sys e (fuel + 1) owner rest := by
  simp only [runListeners, handle_external_event, dispatchEvent]

theorem runListeners_append (sys : List (LangpifyBaseAgent α))
    (e : LangpifyEvent α) (fuel : ℕ) (owner : String)
    (ls ms : List Listener) :
    runListeners sys e fuel owner (ls ++ ms) =
      runListeners sys e fuel owner ls ++ runListeners sys e fuel owner ms := by
  induction ls with
  | nil => simp [runListeners_nil]
  | cons l rest ih =>
    cases l with
    | external i =>
      simp [runListeners_cons_external, ih]
    | handler bid =>
      cases fuel with
      | zero => simp [runListeners, ih]
      | succ fuel => simp [runListeners, ih]

/-- A list of external callbacks dispatches to exactly its own trace,
independently of the available fuel. -/
theorem runListeners_allExt (sys : List (LangpifyBaseAgent α))
    (e : LangpifyEvent α) (fuel : ℕ) (owner : String)
    (ls : List Listener) (h : ∀ l ∈ ls, l.isExt = true) :
    runListeners sys e fuel owner ls = externalTrace owner e ls := by
  induction ls with
  | nil => simp [runListeners_nil, externalTrace]
  | cons l rest ih =>
    cases l with
    | external i =>
      simp only [runListeners_cons_external, externalTrace]
      exact congrArg _ (ih (fun l hl => h l (List.mem_cons_of_mem _ hl)))
    | handler bid =>
      exact absurd (h _ (List.mem_cons_self _ _)) (by simp [Listener.isExt])

/-! ### Concrete sample data for witnesses -/

/-- A concrete need with the given value (all other fields fixed), used by
witnesses at `ℚ` and, where `satiate`'s square root matters, at `ℝ`. -/
def needAt (v : α) : LangpifyNeed α :=
  { name := "hunger", value := v, decay_rate := 0.1, satiation_rate := 0.3,
    satiation_event_type := "meal", min_value := 0, max_value := 1,
    last_updated := 0, description := none }

/-- A concrete rational-valued need used by witnesses. -/
def sampleNeed : LangpifyNeed ℚ := needAt 0.5

/-! ### C3: decay -/

/-- C3: for every need and every `elapsed_seconds ≥ 0`, `decay` sets the
value to `max(min_value, value - decay_rate * elapsed_seconds)` and returns
the new value; consequently (for a need satisfying the documented invariant
`min_value ≤ value` and a nonnegative decay rate) the new value is at most
the previous value and at least `min_value`. -/
theorem claim_C3_decay (n : LangpifyNeed α) (elapsed_seconds : α)
    (helapsed : 0 ≤ elapsed_seconds) :
    n.decay elapsed_seconds =
      ({ n with value := max n.min_value (n.value - n.decay_rate * elapsed_seconds) },
        max n.min_value (n.value - n.decay_rate * elapsed_seconds))
    ∧ (0 ≤ n.decay_rate → n.min_value ≤ n.value →
        (n.decay elapsed_seconds).2 ≤ n.value ∧
          n.min_value ≤ (n.decay elapsed_seconds).2) := by
  refine ⟨rfl, fun hrate hval => ?_⟩
  simp only [LangpifyNeed.decay]
  exact ⟨max_le hval (sub_le_self _ (mul_nonneg hrate helapsed)), le_max_left _ _⟩

/-- Witness for C3 at a concrete need and `elapsed_seconds = 3`. -/
theorem claim_C3_decay_witness :
    ((0 : ℚ) ≤ 3 ∧ 0 ≤ sampleNeed.decay_rate ∧
      sampleNeed.min_value ≤ sampleNeed.value) ∧
    ((sampleNeed.decay 3).2 ≤ sampleNeed.value ∧
      sampleNeed.min_value ≤ (sampleNeed.decay 3).2) :=
  ⟨⟨by norm_num, by norm_num [sampleNeed, needAt], by norm_num [sampleNeed, needAt]⟩,
    (claim_C3_decay sampleNeed 3 (by norm_num)).2
      (by norm_num [sampleNeed, needAt]) (by norm_num [sampleNeed, needAt])⟩

/-! ### C4: satiate -/

/-- The effective increment `amount × sqrt((max_value − value) / max_value)`
that `satiate` adds before clamping (`effective_satiation` in the source). -/
def effectiveIncrement (sqrtFn : α → α) (n : LangpifyNeed α) (amount : α) : α :=
  amount * sqrtFn ((n.max_value - n.value) / n.max_value)

/-- The satiate equation restated through `effectiveIncrement`. -/
theorem satiate_eq_effectiveIncrement (n : LangpifyNeed ℝ) (amount : ℝ) :
    LangpifyNeed.satiate Real.sqrt n (some amount) =
      ({ n with value := min n.max_value (n.value + effectiveIncrement Real.sqrt n amount) },
        min n.max_value (n.value + effectiveIncrement Real.sqrt n amount)) := rfl

/-- C4 (counterexample to the claim as stated): the claim quantifies over
every `amount ≥ 0` and asserts that the effective increment strictly
decreases as `value` approaches `max_value`; at `amount = 0` the increment
is `0` at every value, so it does not strictly decrease.  Concretely, with
`min_value = 0 ≤ value`, `value ≤ max_value = 1`, `amount = 0 ≥ 0` and the
two values `0 < 3/4`, the increment at value `3/4` is not smaller than the
increment at value `0`. -/
theorem claim_C4_satiate_counterexample :
    (0 : ℝ) ≤ 0 ∧ (0 : ℝ) < 3 / 4 ∧ (3 / 4 : ℝ) ≤ 1 ∧
    ¬ (effectiveIncrement Real.sqrt (needAt (3 / 4 : ℝ)) 0 < effectiveIncrement Real.sqrt (needAt (0 : ℝ)) 0) := by
  refine ⟨le_refl 0, by norm_num, by norm_num, ?_⟩
  simp [effectiveIncrement]

/-- C4 (amended): for every need, `satiate(amount)` adds the effective
increment `amount * sqrt((max_value - value)/max_value)` and clamps the
result at `max_value`, returning the new value, with `amount` defaulting to
`satiation_rate` when omitted; for `amount ≥ 0` and `value ≤ max_value` the
new value is at least the previous value and at most `max_value`; and for
every **positive** `amount` (and positive `max_value`) the effective
increment strictly decreases as `value` approaches `max_value`. -/
theorem claim_C4_satiate_amended (n : LangpifyNeed ℝ) (amount : ℝ) :
    LangpifyNeed.satiate Real.sqrt n (some amount) =
      ({ n with value := min n.max_value (n.value + effectiveIncrement Real.sqrt n amount) },
        min n.max_value (n.value + effectiveIncrement Real.sqrt n amount))
    ∧ LangpifyNeed.satiate Real.sqrt n none =
        LangpifyNeed.satiate Real.sqrt n (some n.satiation_rate)
    ∧ (0 ≤ amount → n.value ≤ n.max_value →
        n.value ≤ (LangpifyNeed.satiate Real.sqrt n (some amount)).2 ∧
          (LangpifyNeed.satiate Real.sqrt n (some amount)).2 ≤ n.max_value)
    ∧ (0 < amount → 0 < n.max_value → ∀ v1 v2 : ℝ, v1 < v2 → v2 ≤ n.max_value →
        effectiveIncrement Real.sqrt { n with value := v2 } amount <
          effectiveIncrement Real.sqrt { n with value := v1 } amount) := by
  refine ⟨rfl, rfl, fun ha hv => ?_, fun ha hM v1 v2 h12 h2M => ?_⟩
  · simp only [LangpifyNeed.satiate]
    constructor
    · exact le_min hv
        (le_add_of_nonneg_right (mul_nonneg ha (Real.sqrt_nonneg _)))
    · exact min_le_left _ _
  · simp only [effectiveIncrement]
    have hs : Real.sqrt ((n.max_value - v2) / n.max_value) <
        Real.sqrt ((n.max_value - v1) / n.max_value) := by
      apply Real.sqrt_lt_sqrt (div_nonneg (by linarith) (le_of_lt hM))
      exact div_lt_div_of_pos_right (by linarith) hM
    exact mul_lt_mul_of_pos_left hs ha

/-- Witness for the amended C4 at a concrete need, `amount = 1`, and the two
values `0 < 3/4 ≤ max_value = 1`. -/
theorem claim_C4_satiate_amended_witness :
    ((0 : ℝ) ≤ 1 ∧ (needAt (1 / 2 : ℝ)).value ≤ (needAt (1 / 2 : ℝ)).max_value ∧
      (0 : ℝ) < 1 ∧ (0 : ℝ) < (needAt (1 / 2 : ℝ)).max_value ∧
      (0 : ℝ) < 3 / 4 ∧ (3 / 4 : ℝ) ≤ (needAt (1 / 2 : ℝ)).max_value) ∧
    ((needAt (1 / 2 : ℝ)).value ≤ (LangpifyNeed.satiate Real.sqrt (needAt (1 / 2 : ℝ)) (some 1)).2 ∧
      (LangpifyNeed.satiate Real.sqrt (needAt (1 / 2 : ℝ)) (some 1)).2 ≤ (needAt (1 / 2 : ℝ)).max_value) ∧
    effectiveIncrement Real.sqrt { needAt (1 / 2 : ℝ) with value := 3 / 4 } 1 <
      effectiveIncrement Real.sqrt { needAt (1 / 2 : ℝ) with value := 0 } 1 :=
  ⟨⟨by norm_num, by norm_num [needAt], by norm_num,
      by norm_num [needAt], by norm_num,
      by norm_num [needAt]⟩,
    (claim_C4_satiate_amended (needAt (1 / 2 : ℝ)) 1).2.2.1 (by norm_num)
      (by norm_num [needAt]),
    (claim_C4_satiate_amended (needAt (1 / 2 : ℝ)) 1).2.2.2 (by norm_num)
      (by norm_num [needAt]) 0 (3 / 4) (by norm_num)
      (by norm_num [needAt])⟩

/-! ### C8: urgency banding -/

/-- C8: `get_urgency_level` bands `value` into critical/high/medium/low/
satisfied with half-open lower bounds; in particular `value = 0.2` yields
"high", not "critical". -/
theorem claim_C8_urgency (n : LangpifyNeed α) :
    (n.value < 0.2 → n.get_urgency_level = "critical")
    ∧ (0.2 ≤ n.value → n.value < 0.4 → n.get_urgency_level = "high")
    ∧ (0.4 ≤ n.value → n.value < 0.6 → n.get_urgency_level = "medium")
    ∧ (0.6 ≤ n.value → n.value < 0.8 → n.get_urgency_level = "low")
    ∧ (0.8 ≤ n.value → n.get_urgency_level = "satisfied")
    ∧ (n.value = 0.2 → n.get_urgency_level = "high") := by
  refine ⟨fun h1 => ?_, fun h1 h2 => ?_, fun h1 h2 => ?_, fun h1 h2 => ?_,
    fun h1 => ?_, fun h1 => ?_⟩
  · simp only [LangpifyNeed.get_urgency_level]
    rw [if_pos h1]
  · simp only [LangpifyNeed.get_urgency_level]
    rw [if_neg (not_lt.2 h1), if_pos h2]
  · simp only [LangpifyNeed.get_urgency_level]
    rw [if_neg (not_lt.2 (le_trans (by norm_num) h1)),
      if_neg (not_lt.2 h1), if_pos h2]
  · simp only [LangpifyNeed.get_urgency_level]
    rw [if_neg (not_lt.2 (le_trans (by norm_num) h1)),
      if_neg (not_lt.2 (le_trans (by norm_num) h1)),
      if_neg (not_lt.2 h1), if_pos h2]
  · simp only [LangpifyNeed.get_urgency_level]
    rw [if_neg (not_lt.2 (le_trans (by norm_num) h1)),
      if_neg (not_lt.2 (le_trans (by norm_num) h1)),
      if_neg (not_lt.2 (le_trans (by norm_num) h1)),
      if_neg (not_lt.2 h1)]
  · simp only [LangpifyNeed.get_urgency_level]
    rw [if_neg (by rw [h1]; exact lt_irrefl _), if_pos (by rw [h1]; norm_num)]

/-- Witness for C8 at the spec's sample values 0.19, 0.2, 0.59 and 0.8. -/
theorem claim_C8_urgency_witness :
    ((needAt (0.19 : ℚ)).value < 0.2 ∧ (needAt (0.19 : ℚ)).get_urgency_level = "critical")
    ∧ ((needAt (0.2 : ℚ)).value = 0.2 ∧ (needAt (0.2 : ℚ)).get_urgency_level = "high")
    ∧ ((0.4 : ℚ) ≤ (needAt (0.59 : ℚ)).value ∧ (needAt (0.59 : ℚ)).value < 0.6 ∧
      (needAt (0.59 : ℚ)).get_urgency_level = "medium")
    ∧ ((0.8 : ℚ) ≤ (needAt (0.8 : ℚ)).value ∧
      (needAt (0.8 : ℚ)).get_urgency_level = "satisfied") :=
  ⟨⟨by norm_num [needAt], (claim_C8_urgency _).1 (by norm_num [needAt])⟩,
    ⟨by norm_num [needAt], (claim_C8_urgency _).2.2.2.2.2 (by norm_num [needAt])⟩,
    ⟨by norm_num [needAt], by norm_num [needAt],
      (claim_C8_urgency _).2.2.1 (by norm_num [needAt]) (by norm_num [needAt])⟩,
    ⟨by norm_num [needAt], (claim_C8_urgency _).2.2.2.2.1 (by norm_num [needAt])⟩⟩

/-! ### C1: suspension gate in `emit` -/

/-- C1: on a SUSPENDED agent, `emit` of any event type other than
`status_changed` invokes no local or global listener (it returns the empty
trace, without error), while `emit("status_changed", …)` dispatches exactly
as it would on the same agent when not suspended. -/
theorem claim_C1_suspension_gate (sys : List (LangpifyBaseAgent α)) (fuel : ℕ)
    (a : LangpifyBaseAgent α) (event_type : String) (now : α)
    (data : List (String × PyValue α))
    (h : a.status = LangpifyStatus.SUSPENDED) :
    (event_type ≠ "status_changed" → emit sys fuel a event_type now data = [])
    ∧ emit sys fuel a "status_changed" now data =
        emit sys fuel { a with status := LangpifyStatus.ACTIVE }
          "status_changed" now data := by
  constructor
  · intro hne
    simp [emit, h, hne]
  · simp [emit, h, dispatchEvent, localFor]

/-- A concrete suspended agent with one local `ping` listener, one local
`status_changed` listener and one global listener. -/
def sampleAgent : LangpifyBaseAgent ℚ :=
  { aid := "A", status := LangpifyStatus.SUSPENDED,
    local_sensors := [("ping", [Listener.external 0]),
      ("status_changed", [Listener.external 2])],
    global_sensors := [Listener.external 1], subscribed_agents := [],
    needs := [] }

/-- Witness for C1 on `sampleAgent` with event type `ping`. -/
theorem claim_C1_suspension_gate_witness :
    (sampleAgent.status = LangpifyStatus.SUSPENDED ∧ "ping" ≠ "status_changed") ∧
    emit [] 5 sampleAgent "ping" (0 : ℚ) [] = [] ∧
    emit [] 5 sampleAgent "status_changed" (0 : ℚ) [] =
      emit [] 5 { sampleAgent with status := LangpifyStatus.ACTIVE }
        "status_changed" (0 : ℚ) [] :=
  ⟨⟨rfl, by decide⟩,
    (claim_C1_suspension_gate [] 5 sampleAgent "ping" 0 [] rfl).1 (by decide),
    (claim_C1_suspension_gate [] 5 sampleAgent "ping" 0 [] rfl).2⟩

/-! ### C7: resume -/

/-- C7: `resume` changes the status to ACTIVE and emits a `status_changed`
event carrying the previous and current status exactly when the status is
SUSPENDED or INITIATED; from every other status it leaves the agent
unchanged and emits nothing (and raises no error). -/
theorem claim_C7_resume (sys : List (LangpifyBaseAgent α)) (fuel : ℕ)
    (a : LangpifyBaseAgent α) (now : α) :
    (a.status = LangpifyStatus.SUSPENDED ∨ a.status = LangpifyStatus.INITIATED →
      resume sys fuel a now =
        ({ a with status := LangpifyStatus.ACTIVE },
          emit sys fuel { a with status := LangpifyStatus.ACTIVE }
            "status_changed" now
            [("previous_status", PyValue.status a.status),
              ("current_status", PyValue.status LangpifyStatus.ACTIVE)]))
    ∧ (a.status ≠ LangpifyStatus.SUSPENDED →
        a.status ≠ LangpifyStatus.INITIATED →
        resume sys fuel a now = (a, [])) := by
  constructor
  · rintro (h | h) <;> simp [resume, h]
  · intro h1 h2
    simp [resume, h1, h2]

/-- Witness for C7: resuming the suspended `sampleAgent` activates it and
dispatches `status_changed`; resuming an ACTIVE copy is a no-op. -/
theorem claim_C7_resume_witness :
    (sampleAgent.status = LangpifyStatus.SUSPENDED ∨
      sampleAgent.status = LangpifyStatus.INITIATED) ∧
    resume [] 5 sampleAgent (0 : ℚ) =
      ({ sampleAgent with status := LangpifyStatus.ACTIVE },
        emit [] 5 { sampleAgent with status := LangpifyStatus.ACTIVE }
          "status_changed" (0 : ℚ)
          [("previous_status", PyValue.status sampleAgent.status),
            ("current_status", PyValue.status LangpifyStatus.ACTIVE)]) ∧
    ({ sampleAgent with status := LangpifyStatus.ACTIVE }.status ≠
        LangpifyStatus.SUSPENDED ∧
      { sampleAgent with status := LangpifyStatus.ACTIVE }.status ≠
        LangpifyStatus.INITIATED) ∧
    resume [] 5 { sampleAgent with status := LangpifyStatus.ACTIVE } (0 : ℚ) =
      ({ sampleAgent with status := LangpifyStatus.ACTIVE }, []) :=
  ⟨Or.inl rfl,
    (claim_C7_resume [] 5 sampleAgent 0).1 (Or.inl rfl),
    ⟨by decide, by decide⟩,
    (claim_C7_resume [] 5 { sampleAgent with status := LangpifyStatus.ACTIVE }
      0).2 (by decide) (by decide)⟩

/-! ### C5: update_needs -/

/-- A concrete active agent with the single need `sampleNeed`
(value 0.5, decay_rate 0.1, `last_updated = 0`). -/
def agentN : LangpifyBaseAgent ℚ :=
  { aid := "N", status := LangpifyStatus.ACTIVE, local_sensors := [],
    global_sensors := [], subscribed_agents := [],
    needs := [("hunger", sampleNeed)] }

/-- C5: `update_needs` computes `elapsed = now - last_updated` for every
need, applies `decay(elapsed)` and stamps `last_updated = now` exactly when
`elapsed > 0`; whenever the agent has at least one need it emits a
`needs_updated` event carrying the full name-to-value mapping (even when no
value changed); and the concrete round trip — a need with value 0.5 and
decay rate 0.1, two `update_needs` calls 10 seconds apart — ends at value
`max(0, 0.5 - 0.1*10) = 0`. -/
theorem claim_C5_update_needs (sys : List (LangpifyBaseAgent α)) (fuel : ℕ)
    (a : LangpifyBaseAgent α) (now : α) :
    ((update_needs sys fuel a now).1 =
      { a with needs := a.needs.map (fun p =>
          if 0 < now - p.2.last_updated then
            (p.1, { (p.2.decay (now - p.2.last_updated)).1 with last_updated := now })
          else p) })
    ∧ ((update_needs sys fuel a now).2.1 =
        (update_needs sys fuel a now).1.needs.map (fun p => (p.1, p.2.value)))
    ∧ (a.needs ≠ [] →
        (update_needs sys fuel a now).2.2 =
          emit sys fuel (update_needs sys fuel a now).1 "needs_updated" now
            [("needs", PyValue.dict ((update_needs sys fuel a now).2.1.map
              (fun q => (q.1, PyValue.num q.2))))])
    ∧ ((update_needs ([] : List (LangpifyBaseAgent ℚ)) 0
          ((update_needs [] 0 agentN 0).1) 10).1.needs.map
            (fun p => (p.1, p.2.value)) = [("hunger", 0)]) := by
  refine ⟨rfl, rfl, fun h => ?_, ?_⟩
  · cases hn : a.needs with
    | nil => exact absurd hn h
    | cons q qs =>
      simp [update_needs, hn]
  · norm_num [update_needs, agentN, sampleNeed, needAt, LangpifyNeed.decay]

/-- Witness for C5: `agentN` has a need, so `update_needs` emits the
`needs_updated` event with the full mapping. -/
theorem claim_C5_update_needs_witness :
    agentN.needs ≠ [] ∧
    (update_needs ([] : List (LangpifyBaseAgent ℚ)) 5 agentN 7).2.2 =
      emit [] 5 (update_needs [] 5 agentN 7).1 "needs_updated" 7
        [("needs", PyValue.dict ((update_needs [] 5 agentN 7).2.1.map
          (fun q => (q.1, PyValue.num q.2))))] :=
  ⟨by simp [agentN], (claim_C5_update_needs [] 5 agentN 7).2.2.1 (by simp [agentN])⟩

/-! ### C6: process_need_satisfaction -/

/-- Closed form of the `process_need_satisfaction` loop: the resulting needs
list, the satisfied-needs record, and the emitted trace, as map/filterMap/
flatMap over the input needs. -/
theorem processNeedsList_eq (sys : List (LangpifyBaseAgent α)) (fuel : ℕ)
    (sqrtFn : α → α) (a : LangpifyBaseAgent α) (event_type : String)
    (amount : Option α) (now : α) (ns : List (String × LangpifyNeed α)) :
    processNeedsList sys fuel sqrtFn a event_type amount now ns =
      (ns.map (fun p =>
          if p.2.satiation_event_type = event_type then
            (p.1, { (LangpifyNeed.satiate sqrtFn p.2 amount).1 with last_updated := now })
          else p),
        ns.filterMap (fun p =>
          if p.2.satiation_event_type = event_type then
            some (p.1, (LangpifyNeed.satiate sqrtFn p.2 amount).2)
          else none),
        ns.flatMap (fun p =>
          if p.2.satiation_event_type = event_type then
            emit sys fuel a "need_satisfied" now
              [("need_name", PyValue.str p.1),
                ("old_value", PyValue.num p.2.value),
                ("new_value", PyValue.num (LangpifyNeed.satiate sqrtFn p.2 amount).2),
                ("event_type", PyValue.str event_type)]
          else []) ) := by
  induction ns with
  | nil => simp [processNeedsList]
  | cons p rest ih =>
    obtain ⟨nm, nd⟩ := p
    by_cases hc : nd.satiation_event_type = event_type <;>
      simp [processNeedsList, hc, ih]

/-- C6: `process_need_satisfaction(event_type, amount?)` satiates and stamps
`last_updated = now` on exactly the needs whose `satiation_event_type`
equals `event_type`, records their new values, and emits one
`need_satisfied` event per matched need with
`{need_name, old_value, new_value, event_type}`; non-matching needs are left
completely unchanged. -/
theorem claim_C6_process_need_satisfaction (sys : List (LangpifyBaseAgent α))
    (fuel : ℕ) (sqrtFn : α → α) (a : LangpifyBaseAgent α)
    (event_type : String) (amount : Option α) (now : α) :
    (process_need_satisfaction sys fuel sqrtFn a event_type amount now).1 =
      { a with needs := a.needs.map (fun p =>
          if p.2.satiation_event_type = event_type then
            (p.1, { (LangpifyNeed.satiate sqrtFn p.2 amount).1 with last_updated := now })
          else p) }
    ∧ (process_need_satisfaction sys fuel sqrtFn a event_type amount now).2.1 =
        a.needs.filterMap (fun p =>
          if p.2.satiation_event_type = event_type then
            some (p.1, (LangpifyNeed.satiate sqrtFn p.2 amount).2)
          else none)
    ∧ (process_need_satisfaction sys fuel sqrtFn a event_type amount now).2.2 =
        a.needs.flatMap (fun p =>
          if p.2.satiation_event_type = event_type then
            emit sys fuel a "need_satisfied" now
              [("need_name", PyValue.str p.1),
                ("old_value", PyValue.num p.2.value),
                ("new_value", PyValue.num (LangpifyNeed.satiate sqrtFn p.2 amount).2),
                ("event_type", PyValue.str event_type)]
          else []) := by
  have h := processNeedsList_eq sys fuel sqrtFn a event_type amount now a.needs
  refine ⟨?_, ?_, ?_⟩ <;> simp [process_need_satisfaction, h]

/-! ### C9: suspended agents still mutate needs, but the events are dropped -/

/-- Appending the empty list for every element flattens to the empty list. -/
theorem flatMap_nil_of_forall {β γ : Type} (ns : List β)
    (f : β → List γ) (h : ∀ p ∈ ns, f p = []) : ns.flatMap f = [] := by
  induction ns with
  | nil => simp
  | cons p rest ih =>
    simp [List.flatMap_cons, h p (List.mem_cons_self _ _),
      ih (fun q hq => h q (List.mem_cons_of_mem _ hq))]

/-- C9: on a SUSPENDED agent with at least one need, `update_needs` and
`process_need_satisfaction` mutate the needs (values and `last_updated`)
exactly as they would on the same agent when not suspended, but the
`needs_updated` and `need_satisfied` events they emit reach no listener,
because neither type is `status_changed` and `emit`'s suspension gate drops
them. -/
theorem claim_C9_suspended_needs (sys : List (LangpifyBaseAgent α)) (fuel : ℕ)
    (sqrtFn : α → α) (a : LangpifyBaseAgent α) (event_type : String)
    (amount : Option α) (now : α) (h : a.status = LangpifyStatus.SUSPENDED)
    (hn : a.needs ≠ []) :
    (update_needs sys fuel a now).1.needs =
      (update_needs sys fuel { a with status := LangpifyStatus.ACTIVE } now).1.needs
    ∧ (update_needs sys fuel a now).2.2 = []
    ∧ (process_need_satisfaction sys fuel sqrtFn a event_type amount now).1.needs =
        (process_need_satisfaction sys fuel sqrtFn
          { a with status := LangpifyStatus.ACTIVE } event_type amount now).1.needs
    ∧ (process_need_satisfaction sys fuel sqrtFn a event_type amount now).2.2 = [] := by
  refine ⟨rfl, ?_, ?_, ?_⟩
  · simp [update_needs, emit, h]
  · simp [process_need_satisfaction, processNeedsList_eq]
  · rw [show (process_need_satisfaction sys fuel sqrtFn a event_type amount now).2.2 = (processNeedsList sys fuel sqrtFn a event_type amount now a.needs).2.2 from rfl,
      processNeedsList_eq]
    refine flatMap_nil_of_forall _ _ (fun p hp => ?_)
    by_cases hc : p.2.satiation_event_type = event_type <;>
      simp [hc, emit, h]

/-- Witness for C9 on a suspended copy of `agentN`, with the matching
event type `meal`. -/
theorem claim_C9_suspended_needs_witness :
    ({ agentN with status := LangpifyStatus.SUSPENDED }.status =
        LangpifyStatus.SUSPENDED ∧
      { agentN with status := LangpifyStatus.SUSPENDED }.needs ≠ []) ∧
    (update_needs ([] : List (LangpifyBaseAgent ℚ)) 5
        { agentN with status := LangpifyStatus.SUSPENDED } 7).2.2 = [] ∧
    (process_need_satisfaction ([] : List (LangpifyBaseAgent ℚ)) 5 id
        { agentN with status := LangpifyStatus.SUSPENDED } "meal" none 7).2.2 = [] :=
  ⟨⟨rfl, by simp [agentN]⟩,
    (claim_C9_suspended_needs [] 5 id
      { agentN with status := LangpifyStatus.SUSPENDED } "meal" none 7 rfl
      (by simp [agentN])).2.1,
    (claim_C9_suspended_needs [] 5 id
      { agentN with status := LangpifyStatus.SUSPENDED } "meal" none 7 rfl
      (by simp [agentN])).2.2.2⟩

/-! ### Subscription lemmas -/

/-- `emit` on a non-suspended agent always dispatches. -/
theorem emit_not_suspended (sys : List (LangpifyBaseAgent α)) (fuel : ℕ)
    (a : LangpifyBaseAgent α) (event_type : String) (now : α)
    (data : List (String × PyValue α))
    (h : a.status ≠ LangpifyStatus.SUSPENDED) :
    emit sys fuel a event_type now data =
      runListeners sys
        { type := event_type, source := a.aid, timestamp := now, data := data }
        fuel a.aid (localFor a event_type ++ a.global_sensors) := by
  rw [emit, if_neg (fun hc => h hc.1)]
  rfl

theorem mem_setInsert_self (s : List String) (x : String) : x ∈ setInsert s x := by
  by_cases h : x ∈ s <;> simp [setInsert, h]

theorem setInsert_of_not_mem {s : List String} {x : String} (h : x ∉ s) :
    setInsert s x = s ++ [x] := by
  simp [setInsert, h]

theorem setInsert_of_mem {s : List String} {x : String} (h : x ∈ s) :
    setInsert s x = s := by
  simp [setInsert, h]

theorem handler_not_mem_of_allExt {ls : List Listener}
    (h : ∀ l ∈ ls, l.isExt = true) (bid : String) :
    Listener.handler bid ∉ ls := by
  intro hmem
  simpa [Listener.isExt] using h _ hmem

/-! ### C2: subscription forwarding -/

/-- C2: if B has subscribed to A (both agents not suspended, all previously
registered listeners external), then any
event emitted by A fires A's own local and global listeners once each and
then B's local listeners for the event's type followed by B's global
listeners, exactly once each, with the event's source equal to A's id and
its timestamp unchanged; after B unsubscribes from A, a subsequent emit by A
fires only A's own listeners — no listener on B. -/
theorem claim_C2_subscription_forwarding (A0 B0 : LangpifyBaseAgent α)
    (fuel : ℕ) (ty : String) (now : α) (data : List (String × PyValue α))
    (hne : A0.aid ≠ B0.aid)
    (hsA : A0.status ≠ LangpifyStatus.SUSPENDED)
    (hsB : B0.status ≠ LangpifyStatus.SUSPENDED)
    (hLA : ∀ l ∈ localFor A0 ty, l.isExt = true)
    (hGA : ∀ l ∈ A0.global_sensors, l.isExt = true)
    (hLB : ∀ l ∈ localFor B0 ty, l.isExt = true)
    (hGB : ∀ l ∈ B0.global_sensors, l.isExt = true) :
    emit [(subscribe_to B0 A0).2, (subscribe_to B0 A0).1] (fuel + 1)
        (subscribe_to B0 A0).2 ty now data =
      externalTrace A0.aid { type := ty, source := A0.aid, timestamp := now, data := data }
          (localFor A0 ty) ++
        externalTrace A0.aid { type := ty, source := A0.aid, timestamp := now, data := data }
          A0.global_sensors ++
        externalTrace B0.aid { type := ty, source := A0.aid, timestamp := now, data := data }
          (localFor B0 ty ++ B0.global_sensors)
    ∧ emit [(unsubscribe_from (subscribe_to B0 A0).1 (subscribe_to B0 A0).2).2,
          (unsubscribe_from (subscribe_to B0 A0).1 (subscribe_to B0 A0).2).1]
        (fuel + 1)
        (unsubscribe_from (subscribe_to B0 A0).1 (subscribe_to B0 A0).2).2
        ty now data =
      externalTrace A0.aid { type := ty, source := A0.aid, timestamp := now, data := data }
          (localFor A0 ty) ++
        externalTrace A0.aid { type := ty, source := A0.aid, timestamp := now, data := data }
          A0.global_sensors := by
  have hA1 : (subscribe_to B0 A0).2 =
      { A0 with global_sensors :=
          A0.global_sensors ++ [Listener.handler B0.aid] } := rfl
  have hB1 : (subscribe_to B0 A0).1 =
      { B0 with subscribed_agents := setInsert B0.subscribed_agents A0.aid } := rfl
  have hLBGB : ∀ l ∈ localFor B0 ty ++ B0.global_sensors, l.isExt = true := by
    intro l hl
    rcases List.mem_append.1 hl with h | h
    exacts [hLB l h, hGB l h]
  constructor
  · have hsA' : (subscribe_to B0 A0).2.status ≠ LangpifyStatus.SUSPENDED := hsA
    rw [emit_not_suspended _ _ _ _ _ _ hsA']
    show runListeners _ _ _ _
        (localFor A0 ty ++ (A0.global_sensors ++ [Listener.handler B0.aid])) = _
    rw [runListeners_append, runListeners_append,
      runListeners_allExt _ _ _ _ _ hLA, runListeners_allExt _ _ _ _ _ hGA,
      runListeners_cons_handler, runListeners_nil, List.append_nil]
    have hfind : lookupAgent
        [(subscribe_to B0 A0).2, (subscribe_to B0 A0).1] B0.aid =
        some (subscribe_to B0 A0).1 := by
      simp [lookupAgent, List.find?, hA1, hB1, hne]
    rw [hfind]
    simp only [handle_external_event, dispatchEvent]
    rw [if_neg (fun hc => hsB hc.1),
      if_pos (show (subscribe_to B0 A0).2.aid ∈ (subscribe_to B0 A0).1.subscribed_agents from mem_setInsert_self B0.subscribed_agents A0.aid)]
    rw [show localFor (subscribe_to B0 A0).1 ty ++ (subscribe_to B0 A0).1.global_sensors = localFor B0 ty ++ B0.global_sensors from rfl,
      runListeners_allExt _ _ _ _ _ hLBGB]
    simp only [List.append_assoc]
    rfl
  · have hmem : (subscribe_to B0 A0).2.aid ∈
        (subscribe_to B0 A0).1.subscribed_agents := by
      rw [hA1, hB1]
      exact mem_setInsert_self _ _
    have hQ : unsubscribe_from (subscribe_to B0 A0).1 (subscribe_to B0 A0).2 =
        ({ (subscribe_to B0 A0).1 with subscribed_agents := (subscribe_to B0 A0).1.subscribed_agents.erase (subscribe_to B0 A0).2.aid },
          off_any (subscribe_to B0 A0).2
            (Listener.handler (subscribe_to B0 A0).1.aid)) := by
      rw [unsubscribe_from, if_pos hmem]
    have hoff : off_any (subscribe_to B0 A0).2
        (Listener.handler (subscribe_to B0 A0).1.aid) = A0 := by
      rw [hA1, hB1, off_any]
      rw [if_pos (by simp)]
      have herase : (A0.global_sensors ++ [Listener.handler B0.aid]).erase
          (Listener.handler B0.aid) = A0.global_sensors := by
        rw [List.erase_append_right _ (handler_not_mem_of_allExt hGA B0.aid),
          List.erase_cons_head, List.append_nil]
      simp only [herase]
    rw [hQ]
    simp only [hoff]
    rw [emit_not_suspended _ _ _ _ _ _ hsA]
    rw [runListeners_append, runListeners_allExt _ _ _ _ _ hLA,
      runListeners_allExt _ _ _ _ _ hGA]

/-- A concrete agent used as the emitter in subscription witnesses. -/
def agentA : LangpifyBaseAgent ℚ :=
  { aid := "A", status := LangpifyStatus.ACTIVE,
    local_sensors := [("x", [Listener.external 0])],
    global_sensors := [Listener.external 1], subscribed_agents := [],
    needs := [] }

/-- A concrete agent used as the subscriber in subscription witnesses. -/
def agentB : LangpifyBaseAgent ℚ :=
  { aid := "B", status := LangpifyStatus.ACTIVE,
    local_sensors := [("x", [Listener.external 2])],
    global_sensors := [Listener.external 3], subscribed_agents := [],
    needs := [] }

/-- Witness for C2 on the concrete agents `agentA` and `agentB`. -/
theorem claim_C2_subscription_forwarding_witness :
    (agentA.aid ≠ agentB.aid ∧
      agentA.status ≠ LangpifyStatus.SUSPENDED ∧
      agentB.status ≠ LangpifyStatus.SUSPENDED ∧
      (∀ l ∈ localFor agentA "x", l.isExt = true) ∧
      (∀ l ∈ agentA.global_sensors, l.isExt = true) ∧
      (∀ l ∈ localFor agentB "x", l.isExt = true) ∧
      (∀ l ∈ agentB.global_sensors, l.isExt = true)) ∧
    emit [(subscribe_to agentB agentA).2, (subscribe_to agentB agentA).1]
        (4 + 1) (subscribe_to agentB agentA).2 "x" (0 : ℚ) [] =
      externalTrace agentA.aid
          { type := "x", source := agentA.aid, timestamp := (0 : ℚ), data := [] }
          (localFor agentA "x") ++
        externalTrace agentA.aid
          { type := "x", source := agentA.aid, timestamp := (0 : ℚ), data := [] }
          agentA.global_sensors ++
        externalTrace agentB.aid
          { type := "x", source := agentA.aid, timestamp := (0 : ℚ), data := [] }
          (localFor agentB "x" ++ agentB.global_sensors) ∧
    emit [(unsubscribe_from (subscribe_to agentB agentA).1 (subscribe_to agentB agentA).2).2,
        (unsubscribe_from (subscribe_to agentB agentA).1 (subscribe_to agentB agentA).2).1]
        (4 + 1)
        (unsubscribe_from (subscribe_to agentB agentA).1 (subscribe_to agentB agentA).2).2
        "x" (0 : ℚ) [] =
      externalTrace agentA.aid
          { type := "x", source := agentA.aid, timestamp := (0 : ℚ), data := [] }
          (localFor agentA "x") ++
        externalTrace agentA.aid
          { type := "x", source := agentA.aid, timestamp := (0 : ℚ), data := [] }
          agentA.global_sensors :=
  ⟨⟨by decide, by decide, by decide, by decide, by decide, by decide,
      by decide⟩,
    (claim_C2_subscription_forwarding agentA agentB 4 "x" 0 [] (by decide)
      (by decide) (by decide) (by decide) (by decide) (by decide)
      (by decide)).1,
    (claim_C2_subscription_forwarding agentA agentB 4 "x" 0 [] (by decide)
      (by decide) (by decide) (by decide) (by decide) (by decide)
      (by decide)).2⟩

/-! ### C10: duplicate subscription -/

/-- Two consecutive `subscribe_to` calls by the same subscriber:
`self` subscribes to `other` twice.  Returns `(new self, new other)`. -/
def subscribeTwice (self other : LangpifyBaseAgent α) :
    LangpifyBaseAgent α × LangpifyBaseAgent α :=
  subscribe_to (subscribe_to self other).1 (subscribe_to self other).2

/-- A single `unsubscribe_from` after `subscribeTwice`.
Returns `(new self, new other)`. -/
def unsubscribeAfterTwice (self other : LangpifyBaseAgent α) :
    LangpifyBaseAgent α × LangpifyBaseAgent α :=
  unsubscribe_from (subscribeTwice self other).1 (subscribeTwice self other).2

/-- C10: after B subscribes to A twice, A's global sensor list holds B's
forwarding handler twice while B's subscribed set holds A's id once; after a
single `unsubscribe_from`, one handler copy remains registered on A and A's
id is gone from B's subscribed set, so a subsequent emit by A invokes no
listener on B (the remaining handler re-dispatches only when the event's
source is still in B's subscribed set). -/
theorem claim_C10_duplicate_subscription (A0 B0 : LangpifyBaseAgent α)
    (fuel : ℕ) (ty : String) (now : α) (data : List (String × PyValue α))
    (hne : A0.aid ≠ B0.aid)
    (hsA : A0.status ≠ LangpifyStatus.SUSPENDED)
    (hsB : B0.status ≠ LangpifyStatus.SUSPENDED)
    (hLA : ∀ l ∈ localFor A0 ty, l.isExt = true)
    (hGA : ∀ l ∈ A0.global_sensors, l.isExt = true)
    (hSB : A0.aid ∉ B0.subscribed_agents) :
    (subscribeTwice B0 A0).2.global_sensors.count (Listener.handler B0.aid) = 2
    ∧ (subscribeTwice B0 A0).1.subscribed_agents.count A0.aid = 1
    ∧ (unsubscribeAfterTwice B0 A0).2.global_sensors.count
        (Listener.handler B0.aid) = 1
    ∧ A0.aid ∉ (unsubscribeAfterTwice B0 A0).1.subscribed_agents
    ∧ emit [(unsubscribeAfterTwice B0 A0).2, (unsubscribeAfterTwice B0 A0).1]
        (fuel + 1) (unsubscribeAfterTwice B0 A0).2 ty now data =
      externalTrace A0.aid
          { type := ty, source := A0.aid, timestamp := now, data := data }
          (localFor A0 ty) ++
        externalTrace A0.aid
          { type := ty, source := A0.aid, timestamp := now, data := data }
          A0.global_sensors := by
  have hnm := handler_not_mem_of_allExt hGA B0.aid
  have hA2 : (subscribeTwice B0 A0).2 =
      { A0 with global_sensors := A0.global_sensors ++ [Listener.handler B0.aid] ++ [Listener.handler B0.aid] } := rfl
  have hB2 : (subscribeTwice B0 A0).1 =
      { B0 with subscribed_agents := setInsert (setInsert B0.subscribed_agents A0.aid) A0.aid } := rfl
  have hsub2 : (subscribeTwice B0 A0).1.subscribed_agents =
      B0.subscribed_agents ++ [A0.aid] := by
    rw [show (subscribeTwice B0 A0).1.subscribed_agents = setInsert (setInsert B0.subscribed_agents A0.aid) A0.aid from rfl]
    rw [setInsert_of_mem (mem_setInsert_self _ _), setInsert_of_not_mem hSB]
  have hmem2 : (subscribeTwice B0 A0).2.aid ∈
      (subscribeTwice B0 A0).1.subscribed_agents := by
    rw [hB2]
    exact mem_setInsert_self _ _
  have hU : unsubscribeAfterTwice B0 A0 =
      ({ (subscribeTwice B0 A0).1 with subscribed_agents := (subscribeTwice B0 A0).1.subscribed_agents.erase (subscribeTwice B0 A0).2.aid },
        off_any (subscribeTwice B0 A0).2
          (Listener.handler (subscribeTwice B0 A0).1.aid)) := by
    rw [unsubscribeAfterTwice, unsubscribe_from, if_pos hmem2]
  have hoff2 : off_any (subscribeTwice B0 A0).2
      (Listener.handler (subscribeTwice B0 A0).1.aid) =
      { A0 with global_sensors := A0.global_sensors ++ [Listener.handler B0.aid] } := by
    rw [hA2, hB2, off_any, if_pos (by simp)]
    have herase : (A0.global_sensors ++ [Listener.handler B0.aid] ++ [Listener.handler B0.aid]).erase (Listener.handler B0.aid) = A0.global_sensors ++ [Listener.handler B0.aid] := by
      rw [List.append_assoc, List.erase_append_right _ hnm,
        List.singleton_append, List.erase_cons_head]
    simp only [herase]
  have hA3 : (unsubscribeAfterTwice B0 A0).2 =
      { A0 with global_sensors := A0.global_sensors ++ [Listener.handler B0.aid] } := by
    rw [hU]
    exact hoff2
  have hB3 : (unsubscribeAfterTwice B0 A0).1 = B0 := by
    rw [hU]
    show { (subscribeTwice B0 A0).1 with subscribed_agents := (subscribeTwice B0 A0).1.subscribed_agents.erase (subscribeTwice B0 A0).2.aid } = B0
    rw [hsub2, show (subscribeTwice B0 A0).2.aid = A0.aid from rfl,
      List.erase_append_right _ hSB, List.erase_cons_head, List.append_nil]
    rw [hB2]
  have honeL : [Listener.handler B0.aid].count (Listener.handler B0.aid) = 1 := by
    rw [List.count_cons_self, List.count_nil]
  have honeS : [A0.aid].count A0.aid = 1 := by
    rw [List.count_cons_self, List.count_nil]
  refine ⟨?_, ?_, ?_, ?_, ?_⟩
  · rw [hA2]
    show (A0.global_sensors ++ [Listener.handler B0.aid] ++ [Listener.handler B0.aid]).count (Listener.handler B0.aid) = 2
    rw [List.count_append, List.count_append, List.count_eq_zero.2 hnm, honeL]
  · rw [hsub2, List.count_append, List.count_eq_zero.2 hSB, honeS]
  · rw [hA3]
    show (A0.global_sensors ++ [Listener.handler B0.aid]).count (Listener.handler B0.aid) = 1
    rw [List.count_append, List.count_eq_zero.2 hnm, honeL]
  · rw [hB3]
    exact hSB
  · rw [hA3, hB3]
    rw [emit_not_suspended _ _ _ _ _ _ (show ({ A0 with global_sensors := A0.global_sensors ++ [Listener.handler B0.aid] } : LangpifyBaseAgent α).status ≠ LangpifyStatus.SUSPENDED from hsA)]
    show runListeners _ _ _ _ (localFor A0 ty ++ (A0.global_sensors ++ [Listener.handler B0.aid])) = _
    rw [runListeners_append, runListeners_append,
      runListeners_allExt _ _ _ _ _ hLA, runListeners_allExt _ _ _ _ _ hGA,
      runListeners_cons_handler, runListeners_nil, List.append_nil]
    have hfind : lookupAgent
        [({ A0 with global_sensors := A0.global_sensors ++ [Listener.handler B0.aid] } : LangpifyBaseAgent α), B0] B0.aid = some B0 := by
      simp [lookupAgent, List.find?, hne]
    rw [hfind]
    simp only [handle_external_event]
    rw [if_neg (fun hc => hsB hc.1), if_neg (show ¬ (A0.aid ∈ B0.subscribed_agents) from hSB)]
    simp

/-- Witness for C10 on the concrete agents `agentA` and `agentB`. -/
theorem claim_C10_duplicate_subscription_witness :
    (agentA.aid ≠ agentB.aid ∧
      agentA.status ≠ LangpifyStatus.SUSPENDED ∧
      agentB.status ≠ LangpifyStatus.SUSPENDED ∧
      (∀ l ∈ localFor agentA "x", l.isExt = true) ∧
      (∀ l ∈ agentA.global_sensors, l.isExt = true) ∧
      agentA.aid ∉ agentB.subscribed_agents) ∧
    (subscribeTwice agentB agentA).2.global_sensors.count
      (Listener.handler agentB.aid) = 2 ∧
    (subscribeTwice agentB agentA).1.subscribed_agents.count agentA.aid = 1 ∧
    (unsubscribeAfterTwice agentB agentA).2.global_sensors.count
      (Listener.handler agentB.aid) = 1 ∧
    agentA.aid ∉ (unsubscribeAfterTwice agentB agentA).1.subscribed_agents ∧
    emit [(unsubscribeAfterTwice agentB agentA).2,
        (unsubscribeAfterTwice agentB agentA).1] (4 + 1)
        (unsubscribeAfterTwice agentB agentA).2 "x" (0 : ℚ) [] =
      externalTrace agentA.aid
          { type := "x", source := agentA.aid, timestamp := (0 : ℚ), data := [] }
          (localFor agentA "x") ++
        externalTrace agentA.aid
          { type := "x", source := agentA.aid, timestamp := (0 : ℚ), data := [] }
          agentA.global_sensors :=
  ⟨⟨by decide, by decide, by decide, by decide, by decide, by decide⟩,
    (claim_C10_duplicate_subscription agentA agentB 4 "x" 0 [] (by decide)
      (by decide) (by decide) (by decide) (by decide) (by decide)).1,
    (claim_C10_duplicate_subscription agentA agentB 4 "x" 0 [] (by decide)
      (by decide) (by decide) (by decide) (by decide) (by decide)).2.1,
    (claim_C10_duplicate_subscription agentA agentB 4 "x" 0 [] (by decide)
      (by decide) (by decide) (by decide) (by decide) (by decide)).2.2.1,
    (claim_C10_duplicate_subscription agentA agentB 4 "x" 0 [] (by decide)
      (by decide) (by decide) (by decide) (by decide) (by decide)).2.2.2.1,
    (claim_C10_duplicate_subscription agentA agentB 4 "x" 0 [] (by decide)
      (by decide) (by decide) (by decide) (by decide) (by decide)).2.2.2.2⟩

end Langpify
